import Mathlib

/-!
Verification of the zoom-gesture math of react-native-zoom-reanimated.

The repository file src/index.tsx concatenates several revisions of the
component.  We embed each revision that the specification talks about in its
own namespace, in order of appearance in the file:

* `RevA` — first revision (src/index.tsx lines 1–501): center zoom,
  `baseScale`/`pinchScale` decomposition, `lastScale` bookkeeping.
* `RevB` — second revision (lines 502–1170): focal zoom with
  `getContentContainerSize` guard and a simple pan activation policy.
* `RevC` — third revision (lines 1171–2224): the Apple-Photos style
  implementation with rubber banding, translate bounds with a safety padding,
  gallery swipe handoff and zoom-state notifications.
* `RevE` — fifth revision (lines 2767–3373): focal zoom with exact
  half-excess translate bounds and an aspect-fit content size.

`utils.ts` is embedded at top level (`clamp`, `calculateMaxOffset`).

All numbers are rationals.  JavaScript numeric literals appearing in the
source are written as the exact rationals they denote (0.55 = 11/20,
0.3 = 3/10, 1.5 = 3/2, 0.01 = 1/100).  Animated writes (`withTiming`,
`withSpring`) are modelled by their settled target values; the saved/committed
shared values are modelled directly since the source assigns them plain
numbers.
-/

/-- Width/height pair, as in utils.ts `Dimensions`. -/
structure Dimensions where
  width : ℚ
  height : ℚ
deriving DecidableEq, Repr

/-- x/y pair, as in utils.ts `Offset`. -/
structure Offset where
  x : ℚ
  y : ℚ
deriving DecidableEq, Repr

/-- utils.ts `clamp(value, min, max) = Math.max(min, Math.min(max, value))`. -/
def clamp (value lo hi : ℚ) : ℚ :=
  max lo (min hi value)

/-- utils.ts `calculateMaxOffset(contentSize, containerSize, scale)`:
per axis, 0 when the scaled content is smaller than the container, otherwise
`(scaledDim - containerDim) / 2 / scale`. -/
def calculateMaxOffset (contentSize containerSize : Dimensions) (scale : ℚ) : Offset :=
  let scaledContentWidth := contentSize.width * scale
  let scaledContentHeight := contentSize.height * scale
  { x := if scaledContentWidth < containerSize.width then 0
         else (scaledContentWidth - containerSize.width) / 2 / scale
    y := if scaledContentHeight < containerSize.height then 0
         else (scaledContentHeight - containerSize.height) / 2 / scale }

/-- `doubleTapConfig` prop: all fields optional; an absent config is the
record with all fields `none`. -/
structure DoubleTapConfig where
  defaultScale : Option ℚ
  minZoomScale : Option ℚ
  maxZoomScale : Option ℚ
deriving DecidableEq, Repr

/-- constants.ts `MAX_SCALE`. -/
def MAX_SCALE : ℚ := 4

/-- constants.ts `DOUBLE_TAP_SCALE`. -/
def DOUBLE_TAP_SCALE : ℚ := 2

/-- react-native-gesture-handler gesture `State` as far as the touch handlers
inspect it. -/
inductive GestureState where
  | undetermined
  | began
  | active
  | ended
  | failed
  | cancelled
deriving DecidableEq, Repr

/-- Outcome of a `onTouchesMove` handler: call `state.activate()`,
call `state.fail()`, or return without deciding. -/
inductive PanDecision where
  | activate
  | fail
  | stay
deriving DecidableEq, Repr

/-- Translate bounds returned by `getTranslateBounds`. -/
structure Bounds where
  maxX : ℚ
  maxY : ℚ
deriving DecidableEq, Repr

/-- Committed (saved) state after an operation settles: `savedScale`,
`savedTranslateX`, `savedTranslateY`, `isZoomedIn`. -/
structure Committed where
  scale : ℚ
  tx : ℚ
  ty : ℚ
  zoomed : Bool
deriving DecidableEq, Repr

/-- Scroll command issued to the parent list at pan end in gallery mode,
together with whether a delayed zoom reset was scheduled. -/
structure SnapCommand where
  offset : ℚ
  animated : Bool
  resetScheduled : Bool
deriving DecidableEq, Repr

namespace RevC

/-- `RUBBER_BAND_FACTOR = 0.55` (index.tsx third revision). -/
def RUBBER_BAND_FACTOR : ℚ := 11/20

/-- `MIN_OVER_SCALE = 0.5`. -/
def MIN_OVER_SCALE : ℚ := 1/2

/-- `getTranslateBounds(currentScale)`: half the excess of the scaled content
over the container, floored, minus a 1px safety padding, never negative. -/
def getTranslateBounds (container content : Dimensions) (currentScale : ℚ) : Bounds :=
  let scaledWidth := content.width * currentScale
  let scaledHeight := content.height * currentScale
  let excessWidth := max 0 (scaledWidth - container.width)
  let excessHeight := max 0 (scaledHeight - container.height)
  let safetyPadding : ℚ := 1
  { maxX := max 0 ((⌊excessWidth / 2⌋ : ℚ) - safetyPadding)
    maxY := max 0 ((⌊excessHeight / 2⌋ : ℚ) - safetyPadding) }

/-- `clampTranslation(tx, ty, currentScale)`. -/
def clampTranslation (container content : Dimensions) (tx ty currentScale : ℚ) : Offset :=
  let bounds := getTranslateBounds container content currentScale
  { x := clamp tx (-bounds.maxX) bounds.maxX
    y := clamp ty (-bounds.maxY) bounds.maxY }

/-- `rubberBand(value, min, max, dimension)`: identity inside the bounds,
compressed excess outside. -/
def rubberBand (value lo hi dimension : ℚ) : ℚ :=
  if value < lo then
    lo - (1 - 1 / (((lo - value) * RUBBER_BAND_FACTOR / dimension) + 1)) * dimension
  else if value > hi then
    hi + (1 - 1 / (((value - hi) * RUBBER_BAND_FACTOR / dimension) + 1)) * dimension
  else
    value

/-- `applyRubberBandTranslation(tx, ty, currentScale)`. -/
def applyRubberBandTranslation (container content : Dimensions) (tx ty currentScale : ℚ) : Offset :=
  let bounds := getTranslateBounds container content currentScale
  { x := rubberBand tx (-bounds.maxX) bounds.maxX container.width
    y := rubberBand ty (-bounds.maxY) bounds.maxY container.height }

/-- `applyBoundaryConstraints(targetScale)`: hard-clamp the scale to
`[minScale, maxScale]`, hard-clamp the translation to the bounds at the
clamped scale, commit both and recompute the zoomed flag. -/
def applyBoundaryConstraints (minScale maxScale : ℚ) (container content : Dimensions)
    (targetScale tx ty : ℚ) : Committed :=
  let clampedScale := clamp targetScale minScale maxScale
  let clamped := clampTranslation container content tx ty clampedScale
  { scale := clampedScale
    tx := clamped.x
    ty := clamped.y
    zoomed := decide (clampedScale > minScale) }

/-- The double-tap target scale of `zoomIn`:
`defaultScale ?? minZoomScale ?? DOUBLE_TAP_SCALE`, clamped to
`[minZoomScale ?? minScale, maxZoomScale ?? maxScale]`. -/
def zoomInTargetScale (minScale maxScale : ℚ) (dt : DoubleTapConfig) : ℚ :=
  let targetScale := dt.defaultScale.getD (dt.minZoomScale.getD DOUBLE_TAP_SCALE)
  clamp targetScale (dt.minZoomScale.getD minScale) (dt.maxZoomScale.getD maxScale)

/-- The translation `zoomIn` computes before clamping:
`newT = focalOffset - contentPoint * clampedTargetScale` with
`contentPoint = (focalOffset - currentT) / currentScale` and
`focalOffset = focal - containerCenter`, per axis. -/
def zoomInUnclampedTranslate (container : Dimensions)
    (currentScale currentTx currentTy clampedTargetScale focalX focalY : ℚ) : ℚ × ℚ :=
  let centerX := container.width / 2
  let centerY := container.height / 2
  let focalOffsetX := focalX - centerX
  let focalOffsetY := focalY - centerY
  let contentPointX := (focalOffsetX - currentTx) / currentScale
  let contentPointY := (focalOffsetY - currentTy) / currentScale
  (focalOffsetX - contentPointX * clampedTargetScale,
   focalOffsetY - contentPointY * clampedTargetScale)

/-- `zoomIn(focalX, focalY)`: committed state plus the list of
`onZoomStateChange` payloads it fires (true only when not already zoomed). -/
def zoomIn (minScale maxScale : ℚ) (dt : DoubleTapConfig) (container content : Dimensions)
    (currentScale currentTx currentTy : ℚ) (wasZoomedIn : Bool)
    (focalX focalY : ℚ) : Committed × List Bool :=
  let clampedTargetScale := zoomInTargetScale minScale maxScale dt
  let unclamped := zoomInUnclampedTranslate container currentScale currentTx currentTy
      clampedTargetScale focalX focalY
  let clamped := clampTranslation container content unclamped.1 unclamped.2 clampedTargetScale
  ({ scale := clampedTargetScale, tx := clamped.x, ty := clamped.y, zoomed := true },
   if !wasZoomedIn then [true] else [])

/-- `zoomOut()`: back to `minScale` and the origin; fires false only when
currently zoomed. -/
def zoomOut (minScale : ℚ) (wasZoomedIn : Bool) : Committed × List Bool :=
  ({ scale := minScale, tx := 0, ty := 0, zoomed := false },
   if wasZoomedIn then [false] else [])

/-- Body of the `setTimeout` in `resetZoomDelayed`: resets the committed
state and fires `onZoomStateChange(false)` unconditionally, without checking
the previous flag. -/
def resetZoomDelayedRun (minScale : ℚ) (_wasZoomedIn : Bool) : Committed × List Bool :=
  ({ scale := minScale, tx := 0, ty := 0, zoomed := false }, [false])

/-- The scale written by `pinchGesture.onUpdate`: `savedScale * event.scale`,
rubber-banded below `minScale` with a hard floor at `minScale * 0.5`, and
above `maxScale` with a hard cap at `maxScale * 1.5`. -/
def pinchUpdateScale (minScale maxScale savedScale eventScale : ℚ) : ℚ :=
  let newScale := savedScale * eventScale
  if newScale < minScale then
    max (minScale - (minScale - newScale) * RUBBER_BAND_FACTOR) (minScale * MIN_OVER_SCALE)
  else if newScale > maxScale then
    min (maxScale + (newScale - maxScale) * RUBBER_BAND_FACTOR) (maxScale * (3/2))
  else
    newScale

/-- `panGesture.onTouchesMove` of the third revision, as a pure decision
function over everything the handler reads. -/
def panOnTouchesMove (minScale : ℚ) (enableSwipeToClose hasParentScroll : Bool)
    (container content : Dimensions) (scaleVal : ℚ)
    (isAtLeftEdge isAtRightEdge : Bool) (panStartX touchX : ℚ)
    (eState : GestureState) (numberOfTouches : ℕ) : PanDecision :=
  if eState = GestureState.active then
    PanDecision.stay
  else if eState = GestureState.undetermined ∨ eState = GestureState.began then
    let zoomed := decide (scaleVal > minScale + 1/100)
    if numberOfTouches = 2 then
      PanDecision.activate
    else if !zoomed then
      PanDecision.fail
    else if enableSwipeToClose && hasParentScroll then
      PanDecision.activate
    else if enableSwipeToClose && numberOfTouches = 1 then
      let deltaX := touchX - panStartX
      let bounds := getTranslateBounds container content scaleVal
      if bounds.maxX = 0 then PanDecision.fail
      else if |deltaX| < 5 then PanDecision.stay
      else if isAtLeftEdge && deltaX > 0 then PanDecision.fail
      else if isAtRightEdge && deltaX < 0 then PanDecision.fail
      else PanDecision.activate
    else
      PanDecision.activate
  else
    PanDecision.stay

/-- The saved translation committed by `panGesture.onEnd`: the saved value
plus the gesture translation, hard-clamped to the bounds at the current
scale. -/
def panEndSavedTranslate (container content : Dimensions) (currentScale : ℚ)
    (savedTranslateX savedTranslateY translationX translationY : ℚ) : ℚ × ℚ :=
  let bounds := getTranslateBounds container content currentScale
  (clamp (savedTranslateX + translationX) (-bounds.maxX) bounds.maxX,
   clamp (savedTranslateY + translationY) (-bounds.maxY) bounds.maxY)

/-- The gallery snap decision in `panGesture.onEnd` when
`accumulatedOverflow != 0`: next/prev index when the overflow passes 30% of
the item width or the end velocity passes 500 in the overflow direction,
otherwise back to the current index. -/
def panEndGallerySnap (currentIndex : ℤ) (itemWidth overflow velocityX : ℚ) : SnapCommand :=
  let snapThreshold := itemWidth * (3/10)
  if overflow < -snapThreshold ∨ (overflow < 0 ∧ velocityX < -500) then
    { offset := ((currentIndex : ℚ) + 1) * itemWidth, animated := true, resetScheduled := true }
  else if overflow > snapThreshold ∨ (overflow > 0 ∧ velocityX > 500) then
    { offset := ((currentIndex : ℚ) - 1) * itemWidth, animated := true, resetScheduled := true }
  else
    { offset := (currentIndex : ℚ) * itemWidth, animated := true, resetScheduled := false }

/-- Scale/flag fragment of the shared state read and written by the pinch
gesture callbacks. -/
structure PinchTraceState where
  live : ℚ
  saved : ℚ
  zoomed : Bool
deriving DecidableEq, Repr

/-- `pinchGesture.onStart`: saves the current scale. -/
def pinchOnStartT (st : PinchTraceState) : PinchTraceState :=
  { st with saved := st.live }

/-- `pinchGesture.onUpdate`: writes the rubber-banded live scale and fires no
notification. -/
def pinchOnUpdateT (minScale maxScale : ℚ) (st : PinchTraceState) (eventScale : ℚ) :
    PinchTraceState × List Bool :=
  ({ st with live := pinchUpdateScale minScale maxScale st.saved eventScale }, [])

/-- `pinchGesture.onEnd`: applies the boundary constraints to the scale and
fires `onZoomStateChange` exactly when the committed zoomed flag flips. -/
def pinchOnEndT (minScale maxScale : ℚ) (st : PinchTraceState) : PinchTraceState × List Bool :=
  let wasZoomed := st.zoomed
  let clampedScale := clamp st.live minScale maxScale
  let isNowZoomed := decide (clampedScale > minScale)
  ({ live := clampedScale, saved := clampedScale, zoomed := isNowZoomed },
   if wasZoomed != isNowZoomed then [isNowZoomed] else [])

/-- One whole pinch gesture: start, a list of per-frame scale updates, end.
Returns the final state and all `onZoomStateChange` payloads fired. -/
def pinchGestureRun (minScale maxScale : ℚ) (st : PinchTraceState) (eventScales : List ℚ) :
    PinchTraceState × List Bool :=
  let start := pinchOnStartT st
  let stepped := eventScales.foldl
    (fun acc e =>
      let r := pinchOnUpdateT minScale maxScale acc.1 e
      (r.1, acc.2 ++ r.2))
    (start, ([] : List Bool))
  let fin := pinchOnEndT minScale maxScale stepped.1
  (fin.1, stepped.2 ++ fin.2)

end RevC

namespace RevB

/-- `getContentContainerSize` of the second revision: fit to container width,
with a guard returning height 0 when the content width is not yet laid out. -/
def getContentContainerSize (container content : Dimensions) : Dimensions :=
  if content.width ≤ 0 then
    { width := container.width, height := 0 }
  else
    { width := container.width, height := content.height * container.width / content.width }

/-- `panGesture.onTouchesMove` of the second revision: activate when zoomed
in or on a two-finger touch, fail otherwise; decide only in the
undetermined/began phase. -/
def panOnTouchesMove (eState : GestureState) (isZoomedIn : Bool) (numberOfTouches : ℕ) :
    PanDecision :=
  if eState = GestureState.undetermined ∨ eState = GestureState.began then
    if isZoomedIn || numberOfTouches = 2 then PanDecision.activate else PanDecision.fail
  else
    PanDecision.stay

end RevB

namespace RevE

/-- `getContentContainerSize` of the fifth revision: aspect-fit to the
container, with a guard returning the container size itself when the content
has no laid-out area. -/
def getContentContainerSize (container content : Dimensions) : Dimensions :=
  if content.width ≤ 0 ∨ content.height ≤ 0 then
    { width := container.width, height := container.height }
  else
    let contentAspect := content.width / content.height
    let containerAspect := container.width / container.height
    if contentAspect > containerAspect then
      { width := container.width, height := container.width / contentAspect }
    else
      { width := container.height * contentAspect, height := container.height }

/-- `getTranslateBounds` of the fifth revision: exactly half the excess of
the scaled aspect-fit content over the container. -/
def getTranslateBounds (container content : Dimensions) (currentScale : ℚ) : Bounds :=
  let fitted := getContentContainerSize container content
  let scaledWidth := fitted.width * currentScale
  let scaledHeight := fitted.height * currentScale
  let excessWidth := max 0 (scaledWidth - container.width)
  let excessHeight := max 0 (scaledHeight - container.height)
  { maxX := excessWidth / 2
    maxY := excessHeight / 2 }

/-- `clampTranslation` of the fifth revision. -/
def clampTranslation (container content : Dimensions) (tx ty currentScale : ℚ) : Offset :=
  let bounds := getTranslateBounds container content currentScale
  { x := clamp tx (-bounds.maxX) bounds.maxX
    y := clamp ty (-bounds.maxY) bounds.maxY }

/-- Double-tap target scale of the fifth revision: same chain as the third
revision with the global bounds fixed at 1 and `MAX_SCALE`. -/
def zoomInTargetScale (dt : DoubleTapConfig) : ℚ :=
  let targetScale := dt.defaultScale.getD (dt.minZoomScale.getD DOUBLE_TAP_SCALE)
  clamp targetScale (dt.minZoomScale.getD 1) (dt.maxZoomScale.getD MAX_SCALE)

/-- `zoomIn(focalX, focalY)` of the fifth revision: same focal-point math as
the third revision, clamped with the exact half-excess bounds. -/
def zoomIn (dt : DoubleTapConfig) (container content : Dimensions)
    (currentScale currentTx currentTy focalX focalY : ℚ) : Committed :=
  let clampedTargetScale := zoomInTargetScale dt
  let unclamped := RevC.zoomInUnclampedTranslate container currentScale currentTx currentTy
      clampedTargetScale focalX focalY
  let clamped := clampTranslation container content unclamped.1 unclamped.2 clampedTargetScale
  { scale := clampedTargetScale, tx := clamped.x, ty := clamped.y, zoomed := true }

end RevE

namespace RevA

/-- `zoomIn` of the first revision, scale bookkeeping only: the committed
`lastScale` is the clamped resolved target, while the animated `baseScale`
target is the unclamped resolved target.  The `heuristic` argument stands for
`getScaleFromDimensions(width, height)` (its aspect-ratio value involves a
real square root); `loDefault`/`hiDefault` stand for the `MIN_SCALE` and
`MAX_SCALE` constants of that revision, and `clampScale` is the standard
clamp per the specification. -/
def zoomInScales (dt : DoubleTapConfig) (heuristic loDefault hiDefault : ℚ) : ℚ × ℚ :=
  let newScale := dt.defaultScale.getD heuristic
  let clampedScale := clamp newScale (dt.minZoomScale.getD loDefault) (dt.maxZoomScale.getD hiDefault)
  (clampedScale, newScale)

end RevA

/-! ## Helper lemmas -/

/-- `clamp` lands in the interval when the interval is nonempty. -/
theorem clamp_mem_Icc (value lo hi : ℚ) (h : lo ≤ hi) :
    lo ≤ clamp value lo hi ∧ clamp value lo hi ≤ hi := by
  exact ⟨le_max_left _ _, max_le h (min_le_left _ _)⟩

/-- `clamp` into a symmetric interval is absolutely bounded. -/
theorem abs_clamp_le (value m : ℚ) (hm : 0 ≤ m) : |clamp value (-m) m| ≤ m := by
  rw [abs_le]
  exact ⟨le_max_left _ _, max_le (by linarith) (min_le_left _ _)⟩

/-- The translate bounds of the third revision are nonnegative. -/
theorem RevC.getTranslateBounds_nonneg (container content : Dimensions) (s : ℚ) :
    0 ≤ (RevC.getTranslateBounds container content s).maxX
    ∧ 0 ≤ (RevC.getTranslateBounds container content s).maxY := by
  constructor <;> · simp only [RevC.getTranslateBounds]; exact le_max_left _ _

/-- Branch form versus `max` form of a guarded half-excess division. -/
theorem if_lt_max_div_form (a b s : ℚ) :
    (if a < b then (0 : ℚ) else (a - b) / 2 / s) = max 0 (a - b) / 2 / s := by
  split_ifs with h
  · rw [max_eq_left (by linarith)]
    simp
  · rw [max_eq_right (by linarith)]

/-! ## C2 -/

/-- C2 counterexample: `calculateMaxOffset` does not return
`max(0, scaledDim − containerDim) / 2`; for content 100×100, container
50×50 and scale 2 it returns 37.5 on the x axis, not 75, because the source
divides the half-excess by the scale. -/
theorem calculateMaxOffset_not_half_excess :
    (calculateMaxOffset ⟨100, 100⟩ ⟨50, 50⟩ 2).x ≠ max 0 (100 * 2 - 50) / 2 := by
  norm_num [calculateMaxOffset]

/-- C2 (amended): per axis, `calculateMaxOffset` returns
`max(0, scaledDim − containerDim) / 2 / scale`; the fifth revision's
`getTranslateBounds` returns exactly `max(0, scaledDim − containerDim) / 2`
over the aspect-fit content size; the third revision's returns
`max(0, ⌊excess / 2⌋ − 1)`; each returns 0 on an axis whenever the scaled
content does not exceed the container there. -/
theorem maxOffset_formulas (content container : Dimensions) (scale : ℚ) (hs : 0 < scale) :
    ((calculateMaxOffset content container scale).x
        = max 0 (content.width * scale - container.width) / 2 / scale
      ∧ (calculateMaxOffset content container scale).y
        = max 0 (content.height * scale - container.height) / 2 / scale)
    ∧ ((RevE.getTranslateBounds container content scale).maxX
        = max 0 ((RevE.getContentContainerSize container content).width * scale
            - container.width) / 2
      ∧ (RevE.getTranslateBounds container content scale).maxY
        = max 0 ((RevE.getContentContainerSize container content).height * scale
            - container.height) / 2)
    ∧ ((RevC.getTranslateBounds container content scale).maxX
        = max 0 ((⌊max 0 (content.width * scale - container.width) / 2⌋ : ℚ) - 1)
      ∧ (RevC.getTranslateBounds container content scale).maxY
        = max 0 ((⌊max 0 (content.height * scale - container.height) / 2⌋ : ℚ) - 1))
    ∧ (content.width * scale ≤ container.width →
        (calculateMaxOffset content container scale).x = 0
        ∧ (RevC.getTranslateBounds container content scale).maxX = 0)
    ∧ ((RevE.getContentContainerSize container content).width * scale ≤ container.width →
        (RevE.getTranslateBounds container content scale).maxX = 0) := by
  refine ⟨⟨?_, ?_⟩, ⟨?_, ?_⟩, ⟨rfl, rfl⟩, ?_, ?_⟩
  · simpa only [calculateMaxOffset] using
      if_lt_max_div_form (content.width * scale) container.width scale
  · simpa only [calculateMaxOffset] using
      if_lt_max_div_form (content.height * scale) container.height scale
  · rfl
  · rfl
  · intro h
    constructor
    · simp only [calculateMaxOffset]
      rcases lt_or_ge (content.width * scale) container.width with h' | h'
      · rw [if_pos h']
      · rw [if_neg (not_lt.mpr h')]
        have : content.width * scale = container.width := le_antisymm h h'
        rw [this]
        simp
    · simp only [RevC.getTranslateBounds]
      have hexcess : max 0 (content.width * scale - container.width) = 0 :=
        max_eq_left (by linarith)
      rw [hexcess]
      norm_num
  · intro h
    simp only [RevE.getTranslateBounds]
    rw [max_eq_left (by linarith)]
    norm_num

/-- C2 witness: the amended statement at content 100×100, container 50×50,
scale 2. -/
theorem maxOffset_formulas_witness :
    ((calculateMaxOffset ⟨100, 100⟩ ⟨50, 50⟩ 2).x
        = max 0 ((100 : ℚ) * 2 - 50) / 2 / 2
      ∧ (calculateMaxOffset ⟨100, 100⟩ ⟨50, 50⟩ 2).y
        = max 0 ((100 : ℚ) * 2 - 50) / 2 / 2)
    ∧ ((RevE.getTranslateBounds ⟨50, 50⟩ ⟨100, 100⟩ 2).maxX
        = max 0 ((RevE.getContentContainerSize ⟨50, 50⟩ ⟨100, 100⟩).width * 2 - 50) / 2
      ∧ (RevE.getTranslateBounds ⟨50, 50⟩ ⟨100, 100⟩ 2).maxY
        = max 0 ((RevE.getContentContainerSize ⟨50, 50⟩ ⟨100, 100⟩).height * 2 - 50) / 2)
    ∧ ((RevC.getTranslateBounds ⟨50, 50⟩ ⟨100, 100⟩ 2).maxX
        = max 0 ((⌊max 0 ((100 : ℚ) * 2 - 50) / 2⌋ : ℚ) - 1)
      ∧ (RevC.getTranslateBounds ⟨50, 50⟩ ⟨100, 100⟩ 2).maxY
        = max 0 ((⌊max 0 ((100 : ℚ) * 2 - 50) / 2⌋ : ℚ) - 1))
    ∧ ((100 : ℚ) * 2 ≤ 50 →
        (calculateMaxOffset ⟨100, 100⟩ ⟨50, 50⟩ 2).x = 0
        ∧ (RevC.getTranslateBounds ⟨50, 50⟩ ⟨100, 100⟩ 2).maxX = 0)
    ∧ ((RevE.getContentContainerSize ⟨50, 50⟩ ⟨100, 100⟩).width * 2 ≤ 50 →
        (RevE.getTranslateBounds ⟨50, 50⟩ ⟨100, 100⟩ 2).maxX = 0) :=
  maxOffset_formulas ⟨100, 100⟩ ⟨50, 50⟩ 2 (by norm_num)

/-! ## C5 -/

/-- C5: `rubberBand` is the identity inside `[min, max]`, and beyond a bound
it compresses the excess to
`dimension * (1 − 1 / (1 + excess * factor / dimension))` past that bound,
with factor `RUBBER_BAND_FACTOR = 0.55` in the 0.55–0.6 range; and the
committed state is always hard-clamped: the translations committed by the
pinch-end boundary constraints and by pan end are literal `clamp`s into the
translate bounds, never rubber-banded. -/
theorem rubberBand_spec (value lo hi dimension : ℚ) (hlohi : lo ≤ hi) :
    (lo ≤ value → value ≤ hi → RevC.rubberBand value lo hi dimension = value)
    ∧ (hi < value →
        RevC.rubberBand value lo hi dimension
          = hi + dimension * (1 - 1 / (1 + (value - hi) * RevC.RUBBER_BAND_FACTOR / dimension)))
    ∧ (value < lo →
        RevC.rubberBand value lo hi dimension
          = lo - dimension * (1 - 1 / (1 + (lo - value) * RevC.RUBBER_BAND_FACTOR / dimension)))
    ∧ ((11/20 : ℚ) ≤ RevC.RUBBER_BAND_FACTOR ∧ RevC.RUBBER_BAND_FACTOR ≤ 3/5)
    ∧ (∀ minScale maxScale container content targetScale tx ty,
        (RevC.applyBoundaryConstraints minScale maxScale container content targetScale tx ty).tx
          = clamp tx
              (-(RevC.getTranslateBounds container content
                  (clamp targetScale minScale maxScale)).maxX)
              ((RevC.getTranslateBounds container content
                  (clamp targetScale minScale maxScale)).maxX)
        ∧ (RevC.applyBoundaryConstraints minScale maxScale container content targetScale tx ty).ty
          = clamp ty
              (-(RevC.getTranslateBounds container content
                  (clamp targetScale minScale maxScale)).maxY)
              ((RevC.getTranslateBounds container content
                  (clamp targetScale minScale maxScale)).maxY))
    ∧ (∀ container content s stx sty dx dy,
        (RevC.panEndSavedTranslate container content s stx sty dx dy).1
          = clamp (stx + dx) (-(RevC.getTranslateBounds container content s).maxX)
              ((RevC.getTranslateBounds container content s).maxX)
        ∧ (RevC.panEndSavedTranslate container content s stx sty dx dy).2
          = clamp (sty + dy) (-(RevC.getTranslateBounds container content s).maxY)
              ((RevC.getTranslateBounds container content s).maxY)) := by
  refine ⟨?_, ?_, ?_, by norm_num [RevC.RUBBER_BAND_FACTOR],
    fun _ _ _ _ _ _ _ => ⟨rfl, rfl⟩, fun _ _ _ _ _ _ _ => ⟨rfl, rfl⟩⟩
  · intro h1 h2
    simp only [RevC.rubberBand]
    rw [if_neg (by linarith), if_neg (by linarith)]
  · intro h
    simp only [RevC.rubberBand]
    rw [if_neg (by linarith), if_pos (by linarith)]
    ring
  · intro h
    simp only [RevC.rubberBand]
    rw [if_pos (by linarith)]
    ring

/-- C5 witness: the statement at value 7, bounds [0, 5], dimension 10. -/
theorem rubberBand_spec_witness :
    ((0 : ℚ) ≤ 7 → (7 : ℚ) ≤ 5 → RevC.rubberBand 7 0 5 10 = 7)
    ∧ ((5 : ℚ) < 7 →
        RevC.rubberBand 7 0 5 10
          = 5 + 10 * (1 - 1 / (1 + ((7 : ℚ) - 5) * RevC.RUBBER_BAND_FACTOR / 10)))
    ∧ ((7 : ℚ) < 0 →
        RevC.rubberBand 7 0 5 10
          = 0 - 10 * (1 - 1 / (1 + ((0 : ℚ) - 7) * RevC.RUBBER_BAND_FACTOR / 10)))
    ∧ ((11/20 : ℚ) ≤ RevC.RUBBER_BAND_FACTOR ∧ RevC.RUBBER_BAND_FACTOR ≤ 3/5)
    ∧ (∀ minScale maxScale container content targetScale tx ty,
        (RevC.applyBoundaryConstraints minScale maxScale container content targetScale tx ty).tx
          = clamp tx
              (-(RevC.getTranslateBounds container content
                  (clamp targetScale minScale maxScale)).maxX)
              ((RevC.getTranslateBounds container content
                  (clamp targetScale minScale maxScale)).maxX)
        ∧ (RevC.applyBoundaryConstraints minScale maxScale container content targetScale tx ty).ty
          = clamp ty
              (-(RevC.getTranslateBounds container content
                  (clamp targetScale minScale maxScale)).maxY)
              ((RevC.getTranslateBounds container content
                  (clamp targetScale minScale maxScale)).maxY))
    ∧ (∀ container content s stx sty dx dy,
        (RevC.panEndSavedTranslate container content s stx sty dx dy).1
          = clamp (stx + dx) (-(RevC.getTranslateBounds container content s).maxX)
              ((RevC.getTranslateBounds container content s).maxX)
        ∧ (RevC.panEndSavedTranslate container content s stx sty dx dy).2
          = clamp (sty + dy) (-(RevC.getTranslateBounds container content s).maxY)
              ((RevC.getTranslateBounds container content s).maxY)) :=
  rubberBand_spec 7 0 5 10 (by norm_num)

/-! ## C9 -/

/-- C9: when the measured content width is 0 or negative, the aspect-fit
content-size computations return a safe degenerate size without performing
any division: the second revision returns (containerWidth, 0) and the fifth
revision returns the container size itself. -/
theorem contentContainerSize_degenerate_guard (container content : Dimensions)
    (h : content.width ≤ 0) :
    RevB.getContentContainerSize container content
      = { width := container.width, height := 0 }
    ∧ RevE.getContentContainerSize container content
      = { width := container.width, height := container.height } := by
  constructor
  · simp [RevB.getContentContainerSize, h]
  · simp [RevE.getContentContainerSize, h]

/-- C9 witness: container 300×300, content 0×0 (not yet laid out). -/
theorem contentContainerSize_degenerate_guard_witness :
    RevB.getContentContainerSize ⟨300, 300⟩ ⟨0, 0⟩ = { width := 300, height := 0 }
    ∧ RevE.getContentContainerSize ⟨300, 300⟩ ⟨0, 0⟩ = { width := 300, height := 300 } :=
  contentContainerSize_degenerate_guard ⟨300, 300⟩ ⟨0, 0⟩ (by norm_num)

/-! ## C10 -/

/-- C10: for every positive saved start scale and positive pinch factor, the
scale written by the pinch update handler lies in
`[minScale * 0.5, maxScale * 1.5]`: rubber-banded over-zoom is hard-floored
at half the minimum scale and hard-capped at 1.5 times the maximum scale. -/
theorem pinchUpdateScale_bounded (minScale maxScale savedScale eventScale : ℚ)
    (hmin : 0 < minScale) (hmm : minScale ≤ maxScale)
    (hsaved : 0 < savedScale) (hevent : 0 < eventScale) :
    minScale * (1/2) ≤ RevC.pinchUpdateScale minScale maxScale savedScale eventScale
    ∧ RevC.pinchUpdateScale minScale maxScale savedScale eventScale ≤ maxScale * (3/2) := by
  simp only [RevC.pinchUpdateScale, RevC.RUBBER_BAND_FACTOR, RevC.MIN_OVER_SCALE]
  split_ifs with h1 h2
  · constructor
    · exact le_max_right _ _
    · apply max_le <;> linarith
  · constructor
    · apply le_min <;> linarith
    · exact min_le_right _ _
  · constructor <;> linarith

/-- C10 witness: minScale 1, maxScale 4, saved scale 2, pinch factor 3 (raw
scale 6 is over-zoomed and gets compressed to 5.1, inside [0.5, 6]). -/
theorem pinchUpdateScale_bounded_witness :
    (1 : ℚ) * (1/2) ≤ RevC.pinchUpdateScale 1 4 2 3
    ∧ RevC.pinchUpdateScale 1 4 2 3 ≤ 4 * (3/2) :=
  pinchUpdateScale_bounded 1 4 2 3 (by norm_num) (by norm_num) (by norm_num) (by norm_num)

/-! ## C7 -/

/-- C7: at pan end with nonzero accumulated overflow in gallery mode, the
parent is commanded to the adjacent index at `(index ± 1) * itemWidth` (next
for negative overflow, previous for positive) with a delayed zoom reset
scheduled, exactly when the absolute overflow exceeds 30% of the item width
or the end velocity in the overflow direction exceeds magnitude 500;
otherwise it is commanded back to `currentIndex * itemWidth` with no reset. -/
theorem gallery_snap_decision (currentIndex : ℤ) (itemWidth overflow velocityX : ℚ)
    (hw : 0 < itemWidth) (ho : overflow ≠ 0) :
    (itemWidth * (3/10) < |overflow| ∨
        (overflow < 0 ∧ velocityX < -500) ∨ (0 < overflow ∧ 500 < velocityX) →
      (overflow < 0 →
        (RevC.panEndGallerySnap currentIndex itemWidth overflow velocityX).offset
          = ((currentIndex : ℚ) + 1) * itemWidth)
        ∧ (0 < overflow →
          (RevC.panEndGallerySnap currentIndex itemWidth overflow velocityX).offset
            = ((currentIndex : ℚ) - 1) * itemWidth)
        ∧ (RevC.panEndGallerySnap currentIndex itemWidth overflow velocityX).animated = true
        ∧ (RevC.panEndGallerySnap currentIndex itemWidth overflow velocityX).resetScheduled
            = true)
    ∧ (|overflow| ≤ itemWidth * (3/10) ∧ ¬(overflow < 0 ∧ velocityX < -500)
        ∧ ¬(0 < overflow ∧ 500 < velocityX) →
      RevC.panEndGallerySnap currentIndex itemWidth overflow velocityX
        = { offset := (currentIndex : ℚ) * itemWidth, animated := true,
            resetScheduled := false }) := by
  have ht : 0 < itemWidth * (3/10) := by linarith
  simp only [RevC.panEndGallerySnap]
  split_ifs with h1 h2
  · have hneg : overflow < 0 := by
      rcases h1 with h | h
      · linarith
      · exact h.1
    constructor
    · intro _
      exact ⟨fun _ => rfl, fun hp => absurd hneg (not_lt.mpr (le_of_lt hp)), rfl, rfl⟩
    · rintro ⟨ha, hb, _⟩
      rw [abs_le] at ha
      rcases h1 with h | h
      · linarith [ha.1]
      · exact absurd h hb
  · have hpos : 0 < overflow := by
      rcases h2 with h | h
      · linarith
      · exact h.1
    constructor
    · intro _
      exact ⟨fun hn => absurd hpos (not_lt.mpr (le_of_lt hn)), fun _ => rfl, rfl, rfl⟩
    · rintro ⟨ha, _, hc⟩
      rw [abs_le] at ha
      rcases h2 with h | h
      · linarith [ha.2]
      · exact absurd h hc
  · push_neg at h1 h2
    constructor
    · intro hbig
      exfalso
      rcases hbig with h | h | h
      · rcases abs_cases overflow with ⟨he, hsign⟩ | ⟨he, hsign⟩
        · rw [he] at h
          exact absurd h (not_lt.mpr h2.1)
        · rw [he] at h
          exact absurd (by linarith : overflow < -(itemWidth * (3/10)))
            (not_lt.mpr h1.1)
      · exact absurd (h1.2 h.1) (not_le.mpr h.2)
      · exact absurd (h2.2 h.1) (not_le.mpr h.2)
    · intro _
      rfl

/-- C7 witness: the specification's own test — itemWidth 400, overflow −150
(beyond 30% of 400 = 120) with zero velocity at index 3. -/
theorem gallery_snap_decision_witness :
    ((400 : ℚ) * (3/10) < |(-150 : ℚ)| ∨
        ((-150 : ℚ) < 0 ∧ (0 : ℚ) < -500) ∨ ((0 : ℚ) < -150 ∧ (500 : ℚ) < 0) →
      ((-150 : ℚ) < 0 →
        (RevC.panEndGallerySnap 3 400 (-150) 0).offset = ((3 : ℚ) + 1) * 400)
        ∧ ((0 : ℚ) < -150 →
          (RevC.panEndGallerySnap 3 400 (-150) 0).offset = ((3 : ℚ) - 1) * 400)
        ∧ (RevC.panEndGallerySnap 3 400 (-150) 0).animated = true
        ∧ (RevC.panEndGallerySnap 3 400 (-150) 0).resetScheduled = true)
    ∧ (|(-150 : ℚ)| ≤ 400 * (3/10) ∧ ¬((-150 : ℚ) < 0 ∧ (0 : ℚ) < -500)
        ∧ ¬((0 : ℚ) < -150 ∧ (500 : ℚ) < 0) →
      RevC.panEndGallerySnap 3 400 (-150) 0
        = { offset := (3 : ℚ) * 400, animated := true, resetScheduled := false }) :=
  gallery_snap_decision 3 400 (-150) 0 (by norm_num) (by norm_num)

/-! ## C3 -/

/-- C3: in the undetermined/began phase with gallery swipe mode disabled, a
touch-move activates the pan exactly when the content is zoomed in (scale
above `minScale + 0.01`) or the event reports two touches, and fails it when
the content is not zoomed in and the event reports a single touch; in the
active phase the handler decides nothing.  The same policy holds for the
second revision's handler, whose zoomed test is the committed flag. -/
theorem panTouchesMove_activation_policy (minScale : ℚ) (container content : Dimensions)
    (scaleVal : ℚ) (isAtLeftEdge isAtRightEdge : Bool) (panStartX touchX : ℚ)
    (isZoomedFlag : Bool) (eState : GestureState) (numberOfTouches : ℕ)
    (hphase : eState = GestureState.undetermined ∨ eState = GestureState.began) :
    (minScale + 1/100 < scaleVal ∨ numberOfTouches = 2 →
      RevC.panOnTouchesMove minScale false false container content scaleVal
        isAtLeftEdge isAtRightEdge panStartX touchX eState numberOfTouches
        = PanDecision.activate)
    ∧ (¬ minScale + 1/100 < scaleVal → numberOfTouches = 1 →
      RevC.panOnTouchesMove minScale false false container content scaleVal
        isAtLeftEdge isAtRightEdge panStartX touchX eState numberOfTouches
        = PanDecision.fail)
    ∧ (∀ n s iL iR pX tX,
      RevC.panOnTouchesMove minScale false false container content s iL iR pX tX
        GestureState.active n = PanDecision.stay)
    ∧ (isZoomedFlag = true ∨ numberOfTouches = 2 →
      RevB.panOnTouchesMove eState isZoomedFlag numberOfTouches = PanDecision.activate)
    ∧ (isZoomedFlag = false → numberOfTouches = 1 →
      RevB.panOnTouchesMove eState isZoomedFlag numberOfTouches = PanDecision.fail)
    ∧ (∀ z n, RevB.panOnTouchesMove GestureState.active z n = PanDecision.stay) := by
  refine ⟨?_, ?_, ?_, ?_, ?_, ?_⟩
  · intro h
    by_cases hn : numberOfTouches = 2
    · rcases hphase with he | he <;> subst he <;>
        simp [RevC.panOnTouchesMove, hn]
    · have hz : minScale + 1/100 < scaleVal := h.resolve_right hn
      rcases hphase with he | he <;> subst he <;>
        (simp [RevC.panOnTouchesMove, hn]; linarith)
  · intro hz hn
    have hn2 : numberOfTouches ≠ 2 := by omega
    have hz' : scaleVal ≤ minScale + 1/100 := not_lt.mp hz
    rcases hphase with he | he <;> subst he <;>
      (simp [RevC.panOnTouchesMove, hn2]; linarith)
  · intro n s iL iR pX tX
    simp [RevC.panOnTouchesMove]
  · intro h
    rcases hphase with he | he <;> subst he <;>
      rcases h with h | h <;> simp [RevB.panOnTouchesMove, h]
  · intro hz hn
    have hn2 : numberOfTouches ≠ 2 := by omega
    rcases hphase with he | he <;> subst he <;>
      simp [RevB.panOnTouchesMove, hz, hn2]
  · intro z n
    simp [RevB.panOnTouchesMove]

/-- C3 witness: scale 2 over minScale 1 (zoomed in), one touch in the began
phase activates; the same inputs exercise the other conjuncts. -/
theorem panTouchesMove_activation_policy_witness :
    ((1 : ℚ) + 1/100 < 2 ∨ (1 : ℕ) = 2 →
      RevC.panOnTouchesMove 1 false false ⟨300, 300⟩ ⟨300, 300⟩ 2
        false false 0 0 GestureState.began 1 = PanDecision.activate)
    ∧ (¬ (1 : ℚ) + 1/100 < 2 → (1 : ℕ) = 1 →
      RevC.panOnTouchesMove 1 false false ⟨300, 300⟩ ⟨300, 300⟩ 2
        false false 0 0 GestureState.began 1 = PanDecision.fail)
    ∧ (∀ n s iL iR pX tX,
      RevC.panOnTouchesMove 1 false false ⟨300, 300⟩ ⟨300, 300⟩ s iL iR pX tX
        GestureState.active n = PanDecision.stay)
    ∧ (false = true ∨ (1 : ℕ) = 2 →
      RevB.panOnTouchesMove GestureState.began false 1 = PanDecision.activate)
    ∧ (false = false → (1 : ℕ) = 1 →
      RevB.panOnTouchesMove GestureState.began false 1 = PanDecision.fail)
    ∧ (∀ z n, RevB.panOnTouchesMove GestureState.active z n = PanDecision.stay) :=
  panTouchesMove_activation_policy 1 ⟨300, 300⟩ ⟨300, 300⟩ 2 false false 0 0
    false GestureState.began 1 (Or.inr rfl)

/-! ## C1 -/

/-- C1: double-tap zoom-in computes the content point under the focal point
as `(focalOffset − t) / s`, sets the pre-clamp translation to
`focalOffset − contentPoint · s2` per axis — so that the content point that
was under the focal point remains under it at the clamped target scale `s2`
— and commits exactly the clamp of that translation to the translate bounds
for `s2`; this holds for the third and fifth revisions. -/
theorem zoomIn_focal_point_preserving (minScale maxScale : ℚ) (dt : DoubleTapConfig)
    (container content : Dimensions) (s tx ty focalX focalY : ℚ) (wasZoomed : Bool)
    (hW : 0 < container.width) (hH : 0 < container.height) (hs : 0 < s)
    (hs2 : 0 < RevC.zoomInTargetScale minScale maxScale dt)
    (hs2e : 0 < RevE.zoomInTargetScale dt) :
    ((RevC.zoomInUnclampedTranslate container s tx ty
          (RevC.zoomInTargetScale minScale maxScale dt) focalX focalY).1
        = (focalX - container.width / 2)
          - ((focalX - container.width / 2) - tx) / s
            * RevC.zoomInTargetScale minScale maxScale dt
      ∧ (RevC.zoomInUnclampedTranslate container s tx ty
          (RevC.zoomInTargetScale minScale maxScale dt) focalX focalY).2
        = (focalY - container.height / 2)
          - ((focalY - container.height / 2) - ty) / s
            * RevC.zoomInTargetScale minScale maxScale dt)
    ∧ (((focalX - container.width / 2)
          - (RevC.zoomInUnclampedTranslate container s tx ty
              (RevC.zoomInTargetScale minScale maxScale dt) focalX focalY).1)
          / RevC.zoomInTargetScale minScale maxScale dt
        = ((focalX - container.width / 2) - tx) / s
      ∧ ((focalY - container.height / 2)
          - (RevC.zoomInUnclampedTranslate container s tx ty
              (RevC.zoomInTargetScale minScale maxScale dt) focalX focalY).2)
          / RevC.zoomInTargetScale minScale maxScale dt
        = ((focalY - container.height / 2) - ty) / s)
    ∧ ((RevC.zoomIn minScale maxScale dt container content s tx ty wasZoomed
          focalX focalY).1.scale = RevC.zoomInTargetScale minScale maxScale dt
      ∧ (RevC.zoomIn minScale maxScale dt container content s tx ty wasZoomed
          focalX focalY).1.tx
        = clamp (RevC.zoomInUnclampedTranslate container s tx ty
              (RevC.zoomInTargetScale minScale maxScale dt) focalX focalY).1
            (-(RevC.getTranslateBounds container content
                (RevC.zoomInTargetScale minScale maxScale dt)).maxX)
            ((RevC.getTranslateBounds container content
                (RevC.zoomInTargetScale minScale maxScale dt)).maxX)
      ∧ (RevC.zoomIn minScale maxScale dt container content s tx ty wasZoomed
          focalX focalY).1.ty
        = clamp (RevC.zoomInUnclampedTranslate container s tx ty
              (RevC.zoomInTargetScale minScale maxScale dt) focalX focalY).2
            (-(RevC.getTranslateBounds container content
                (RevC.zoomInTargetScale minScale maxScale dt)).maxY)
            ((RevC.getTranslateBounds container content
                (RevC.zoomInTargetScale minScale maxScale dt)).maxY))
    ∧ (((focalX - container.width / 2)
          - (RevC.zoomInUnclampedTranslate container s tx ty
              (RevE.zoomInTargetScale dt) focalX focalY).1)
          / RevE.zoomInTargetScale dt
        = ((focalX - container.width / 2) - tx) / s
      ∧ (RevE.zoomIn dt container content s tx ty focalX focalY).scale
          = RevE.zoomInTargetScale dt
      ∧ (RevE.zoomIn dt container content s tx ty focalX focalY).tx
        = clamp (RevC.zoomInUnclampedTranslate container s tx ty
              (RevE.zoomInTargetScale dt) focalX focalY).1
            (-(RevE.getTranslateBounds container content (RevE.zoomInTargetScale dt)).maxX)
            ((RevE.getTranslateBounds container content (RevE.zoomInTargetScale dt)).maxX)) := by
  have hsne : s ≠ 0 := ne_of_gt hs
  have hs2ne : RevC.zoomInTargetScale minScale maxScale dt ≠ 0 := ne_of_gt hs2
  have hs2ene : RevE.zoomInTargetScale dt ≠ 0 := ne_of_gt hs2e
  refine ⟨⟨rfl, rfl⟩, ⟨?_, ?_⟩, ⟨rfl, rfl, rfl⟩, ⟨?_, rfl, rfl⟩⟩
  · simp only [RevC.zoomInUnclampedTranslate]
    field_simp
    ring
  · simp only [RevC.zoomInUnclampedTranslate]
    field_simp
    ring
  · simp only [RevC.zoomInUnclampedTranslate]
    field_simp
    ring

/-- C1 witness: the specification's test — container 300×300, content
300×300, scale 1, translation (0,0), double tap at (200,200), default
config (target 2). -/
theorem zoomIn_focal_point_preserving_witness :
    ((RevC.zoomInUnclampedTranslate ⟨300, 300⟩ 1 0 0
          (RevC.zoomInTargetScale 1 4 ⟨none, none, none⟩) 200 200).1
        = ((200 : ℚ) - 300 / 2)
          - (((200 : ℚ) - 300 / 2) - 0) / 1 * RevC.zoomInTargetScale 1 4 ⟨none, none, none⟩
      ∧ (RevC.zoomInUnclampedTranslate ⟨300, 300⟩ 1 0 0
          (RevC.zoomInTargetScale 1 4 ⟨none, none, none⟩) 200 200).2
        = ((200 : ℚ) - 300 / 2)
          - (((200 : ℚ) - 300 / 2) - 0) / 1 * RevC.zoomInTargetScale 1 4 ⟨none, none, none⟩)
    ∧ ((((200 : ℚ) - 300 / 2)
          - (RevC.zoomInUnclampedTranslate ⟨300, 300⟩ 1 0 0
              (RevC.zoomInTargetScale 1 4 ⟨none, none, none⟩) 200 200).1)
          / RevC.zoomInTargetScale 1 4 ⟨none, none, none⟩
        = (((200 : ℚ) - 300 / 2) - 0) / 1
      ∧ (((200 : ℚ) - 300 / 2)
          - (RevC.zoomInUnclampedTranslate ⟨300, 300⟩ 1 0 0
              (RevC.zoomInTargetScale 1 4 ⟨none, none, none⟩) 200 200).2)
          / RevC.zoomInTargetScale 1 4 ⟨none, none, none⟩
        = (((200 : ℚ) - 300 / 2) - 0) / 1)
    ∧ ((RevC.zoomIn 1 4 ⟨none, none, none⟩ ⟨300, 300⟩ ⟨300, 300⟩ 1 0 0 false
          200 200).1.scale = RevC.zoomInTargetScale 1 4 ⟨none, none, none⟩
      ∧ (RevC.zoomIn 1 4 ⟨none, none, none⟩ ⟨300, 300⟩ ⟨300, 300⟩ 1 0 0 false
          200 200).1.tx
        = clamp (RevC.zoomInUnclampedTranslate ⟨300, 300⟩ 1 0 0
              (RevC.zoomInTargetScale 1 4 ⟨none, none, none⟩) 200 200).1
            (-(RevC.getTranslateBounds ⟨300, 300⟩ ⟨300, 300⟩
                (RevC.zoomInTargetScale 1 4 ⟨none, none, none⟩)).maxX)
            ((RevC.getTranslateBounds ⟨300, 300⟩ ⟨300, 300⟩
                (RevC.zoomInTargetScale 1 4 ⟨none, none, none⟩)).maxX)
      ∧ (RevC.zoomIn 1 4 ⟨none, none, none⟩ ⟨300, 300⟩ ⟨300, 300⟩ 1 0 0 false
          200 200).1.ty
        = clamp (RevC.zoomInUnclampedTranslate ⟨300, 300⟩ 1 0 0
              (RevC.zoomInTargetScale 1 4 ⟨none, none, none⟩) 200 200).2
            (-(RevC.getTranslateBounds ⟨300, 300⟩ ⟨300, 300⟩
                (RevC.zoomInTargetScale 1 4 ⟨none, none, none⟩)).maxY)
            ((RevC.getTranslateBounds ⟨300, 300⟩ ⟨300, 300⟩
                (RevC.zoomInTargetScale 1 4 ⟨none, none, none⟩)).maxY))
    ∧ ((((200 : ℚ) - 300 / 2)
          - (RevC.zoomInUnclampedTranslate ⟨300, 300⟩ 1 0 0
              (RevE.zoomInTargetScale ⟨none, none, none⟩) 200 200).1)
          / RevE.zoomInTargetScale ⟨none, none, none⟩
        = (((200 : ℚ) - 300 / 2) - 0) / 1
      ∧ (RevE.zoomIn ⟨none, none, none⟩ ⟨300, 300⟩ ⟨300, 300⟩ 1 0 0 200 200).scale
          = RevE.zoomInTargetScale ⟨none, none, none⟩
      ∧ (RevE.zoomIn ⟨none, none, none⟩ ⟨300, 300⟩ ⟨300, 300⟩ 1 0 0 200 200).tx
        = clamp (RevC.zoomInUnclampedTranslate ⟨300, 300⟩ 1 0 0
              (RevE.zoomInTargetScale ⟨none, none, none⟩) 200 200).1
            (-(RevE.getTranslateBounds ⟨300, 300⟩ ⟨300, 300⟩
                (RevE.zoomInTargetScale ⟨none, none, none⟩)).maxX)
            ((RevE.getTranslateBounds ⟨300, 300⟩ ⟨300, 300⟩
                (RevE.zoomInTargetScale ⟨none, none, none⟩)).maxX)) :=
  zoomIn_focal_point_preserving 1 4 ⟨none, none, none⟩ ⟨300, 300⟩ ⟨300, 300⟩ 1 0 0
    200 200 false (by norm_num) (by norm_num) (by norm_num)
    (by norm_num [RevC.zoomInTargetScale, clamp, DOUBLE_TAP_SCALE])
    (by norm_num [RevE.zoomInTargetScale, clamp, DOUBLE_TAP_SCALE, MAX_SCALE])

/-! ## C8 -/

/-- C8 counterexample: with `doubleTapConfig = { minZoomScale: 1.5 }` and no
`defaultScale`, the third revision resolves the target to `minZoomScale`
itself (1.5), not to the heuristic 2× clamped into [1.5, 4] (which is 2). -/
theorem zoomInTargetScale_minZoom_fallback :
    RevC.zoomInTargetScale 1 4 ⟨none, some (3/2), none⟩ = 3/2
    ∧ clamp DOUBLE_TAP_SCALE (3/2) 4 = 2
    ∧ RevC.zoomInTargetScale 1 4 ⟨none, some (3/2), none⟩ ≠ clamp DOUBLE_TAP_SCALE (3/2) 4 := by
  refine ⟨?_, ?_, ?_⟩ <;>
    norm_num [RevC.zoomInTargetScale, clamp, DOUBLE_TAP_SCALE]

/-- C8 (amended): the double-tap target is `defaultScale` when present,
clamped to `[minZoomScale ?? minScale, maxZoomScale ?? maxScale]`; when
`defaultScale` is absent but `minZoomScale` is present, the third revision
commits `minZoomScale` itself, bypassing the heuristic; when both are absent
it commits the fixed 2× heuristic clamped to the fallback bounds.  In the
first revision the committed `lastScale` is the clamp of
`defaultScale ?? heuristic`, while the animated base-scale target is the
unclamped resolved value. -/
theorem double_tap_scale_resolution (minScale maxScale : ℚ) (dt : DoubleTapConfig)
    (heuristic : ℚ) :
    (∀ d, dt.defaultScale = some d →
      RevC.zoomInTargetScale minScale maxScale dt
        = clamp d (dt.minZoomScale.getD minScale) (dt.maxZoomScale.getD maxScale))
    ∧ (dt.defaultScale = none → ∀ mz, dt.minZoomScale = some mz →
      RevC.zoomInTargetScale minScale maxScale dt = mz)
    ∧ (dt.defaultScale = none → dt.minZoomScale = none →
      RevC.zoomInTargetScale minScale maxScale dt
        = clamp DOUBLE_TAP_SCALE minScale (dt.maxZoomScale.getD maxScale))
    ∧ ((RevA.zoomInScales dt heuristic minScale maxScale).1
        = clamp (dt.defaultScale.getD heuristic)
            (dt.minZoomScale.getD minScale) (dt.maxZoomScale.getD maxScale))
    ∧ ((RevA.zoomInScales dt heuristic minScale maxScale).2
        = dt.defaultScale.getD heuristic) := by
  refine ⟨?_, ?_, ?_, rfl, rfl⟩
  · intro d hd
    simp [RevC.zoomInTargetScale, hd]
  · intro h0 mz hmz
    simp only [RevC.zoomInTargetScale, h0, hmz, Option.getD_some, Option.getD_none, clamp]
    exact max_eq_left (min_le_right _ _)
  · intro h0 h1
    simp [RevC.zoomInTargetScale, h0, h1]

/-- C8 witness: with no config and heuristic 3, the third revision resolves
to clamp(2, 1, 4) and the first commits clamp(3, 1, 4) while animating to
the unclamped 3. -/
theorem double_tap_scale_resolution_witness :
    (∀ d, (⟨none, none, none⟩ : DoubleTapConfig).defaultScale = some d →
      RevC.zoomInTargetScale 1 4 ⟨none, none, none⟩
        = clamp d ((⟨none, none, none⟩ : DoubleTapConfig).minZoomScale.getD 1)
            ((⟨none, none, none⟩ : DoubleTapConfig).maxZoomScale.getD 4))
    ∧ ((⟨none, none, none⟩ : DoubleTapConfig).defaultScale = none →
        ∀ mz, (⟨none, none, none⟩ : DoubleTapConfig).minZoomScale = some mz →
      RevC.zoomInTargetScale 1 4 ⟨none, none, none⟩ = mz)
    ∧ ((⟨none, none, none⟩ : DoubleTapConfig).defaultScale = none →
        (⟨none, none, none⟩ : DoubleTapConfig).minZoomScale = none →
      RevC.zoomInTargetScale 1 4 ⟨none, none, none⟩
        = clamp DOUBLE_TAP_SCALE 1 ((⟨none, none, none⟩ : DoubleTapConfig).maxZoomScale.getD 4))
    ∧ ((RevA.zoomInScales ⟨none, none, none⟩ 3 1 4).1
        = clamp ((⟨none, none, none⟩ : DoubleTapConfig).defaultScale.getD 3)
            ((⟨none, none, none⟩ : DoubleTapConfig).minZoomScale.getD 1)
            ((⟨none, none, none⟩ : DoubleTapConfig).maxZoomScale.getD 4))
    ∧ ((RevA.zoomInScales ⟨none, none, none⟩ 3 1 4).2
        = (⟨none, none, none⟩ : DoubleTapConfig).defaultScale.getD 3) :=
  double_tap_scale_resolution 1 4 ⟨none, none, none⟩ 3

/-! ## C4 -/

/-- C4 counterexample: double-tap zoom-in with
`doubleTapConfig = { defaultScale: 6, maxZoomScale: 6 }` under global bounds
[1, 4] commits scale 6 > maxScale = 4, so the committed scale is not within
the global bounds after every committing operation. -/
theorem zoomIn_commit_exceeds_maxScale :
    (RevC.zoomIn 1 4 ⟨some 6, none, some 6⟩ ⟨300, 300⟩ ⟨300, 300⟩ 1 0 0 false
        150 150).1.scale = 6
    ∧ ¬((RevC.zoomIn 1 4 ⟨some 6, none, some 6⟩ ⟨300, 300⟩ ⟨300, 300⟩ 1 0 0 false
        150 150).1.scale ≤ 4) := by
  constructor <;>
    norm_num [RevC.zoomIn, RevC.zoomInTargetScale, clamp]

/-- C4 (amended): after zoom-out, pinch-end boundary constraints and
pan-end save (given `minScale ≤ maxScale`), the committed scale lies in
`[minScale, maxScale]`, the committed translation is absolutely bounded by
the translate bounds at the committed scale, and the zoomed flag equals
(committed scale > minScale).  After double-tap zoom-in, the committed scale
is the target clamped to the double-tap override bounds — which may exceed
the global bounds when overrides are supplied — the committed translation is
bounded by the translate bounds at that scale, and the zoomed flag is set to
true unconditionally. -/
theorem committed_state_invariants (minScale maxScale : ℚ) (container content : Dimensions)
    (hmm : minScale ≤ maxScale) :
    (∀ wasZoomed,
      minScale ≤ (RevC.zoomOut minScale wasZoomed).1.scale
      ∧ (RevC.zoomOut minScale wasZoomed).1.scale ≤ maxScale
      ∧ |(RevC.zoomOut minScale wasZoomed).1.tx|
          ≤ (RevC.getTranslateBounds container content
              (RevC.zoomOut minScale wasZoomed).1.scale).maxX
      ∧ |(RevC.zoomOut minScale wasZoomed).1.ty|
          ≤ (RevC.getTranslateBounds container content
              (RevC.zoomOut minScale wasZoomed).1.scale).maxY
      ∧ (RevC.zoomOut minScale wasZoomed).1.zoomed
          = decide ((RevC.zoomOut minScale wasZoomed).1.scale > minScale))
    ∧ (∀ targetScale tx ty,
      minScale ≤ (RevC.applyBoundaryConstraints minScale maxScale container content
          targetScale tx ty).scale
      ∧ (RevC.applyBoundaryConstraints minScale maxScale container content
          targetScale tx ty).scale ≤ maxScale
      ∧ |(RevC.applyBoundaryConstraints minScale maxScale container content
          targetScale tx ty).tx|
          ≤ (RevC.getTranslateBounds container content
              (RevC.applyBoundaryConstraints minScale maxScale container content
                targetScale tx ty).scale).maxX
      ∧ |(RevC.applyBoundaryConstraints minScale maxScale container content
          targetScale tx ty).ty|
          ≤ (RevC.getTranslateBounds container content
              (RevC.applyBoundaryConstraints minScale maxScale container content
                targetScale tx ty).scale).maxY
      ∧ (RevC.applyBoundaryConstraints minScale maxScale container content
          targetScale tx ty).zoomed
          = decide ((RevC.applyBoundaryConstraints minScale maxScale container content
              targetScale tx ty).scale > minScale))
    ∧ (∀ s stx sty dx dy,
      |(RevC.panEndSavedTranslate container content s stx sty dx dy).1|
          ≤ (RevC.getTranslateBounds container content s).maxX
      ∧ |(RevC.panEndSavedTranslate container content s stx sty dx dy).2|
          ≤ (RevC.getTranslateBounds container content s).maxY)
    ∧ (∀ dt s tx ty wasZoomed fx fy,
      (RevC.zoomIn minScale maxScale dt container content s tx ty wasZoomed fx fy).1.scale
          = RevC.zoomInTargetScale minScale maxScale dt
      ∧ |(RevC.zoomIn minScale maxScale dt container content s tx ty wasZoomed fx fy).1.tx|
          ≤ (RevC.getTranslateBounds container content
              (RevC.zoomInTargetScale minScale maxScale dt)).maxX
      ∧ |(RevC.zoomIn minScale maxScale dt container content s tx ty wasZoomed fx fy).1.ty|
          ≤ (RevC.getTranslateBounds container content
              (RevC.zoomInTargetScale minScale maxScale dt)).maxY
      ∧ (RevC.zoomIn minScale maxScale dt container content s tx ty wasZoomed
          fx fy).1.zoomed = true) := by
  refine ⟨?_, ?_, ?_, ?_⟩
  · intro wasZoomed
    refine ⟨le_refl _, hmm, ?_, ?_, ?_⟩
    · simpa using (RevC.getTranslateBounds_nonneg container content minScale).1
    · simpa using (RevC.getTranslateBounds_nonneg container content minScale).2
    · exact (decide_eq_false (lt_irrefl minScale)).symm
  · intro targetScale tx ty
    refine ⟨le_max_left _ _, max_le hmm (min_le_left _ _), ?_, ?_, rfl⟩
    · exact abs_clamp_le _ _
        (RevC.getTranslateBounds_nonneg container content
          (clamp targetScale minScale maxScale)).1
    · exact abs_clamp_le _ _
        (RevC.getTranslateBounds_nonneg container content
          (clamp targetScale minScale maxScale)).2
  · intro s stx sty dx dy
    exact ⟨abs_clamp_le _ _ (RevC.getTranslateBounds_nonneg container content s).1,
      abs_clamp_le _ _ (RevC.getTranslateBounds_nonneg container content s).2⟩
  · intro dt s tx ty wasZoomed fx fy
    refine ⟨rfl, ?_, ?_, rfl⟩
    · exact abs_clamp_le _ _
        (RevC.getTranslateBounds_nonneg container content
          (RevC.zoomInTargetScale minScale maxScale dt)).1
    · exact abs_clamp_le _ _
        (RevC.getTranslateBounds_nonneg container content
          (RevC.zoomInTargetScale minScale maxScale dt)).2

/-- C4 witness: the pan-end save at scale 2 with a large gesture delta stays
within the translate bounds (container and content 300×300). -/
theorem committed_state_invariants_witness :
    |(RevC.panEndSavedTranslate ⟨300, 300⟩ ⟨300, 300⟩ 2 0 0 700 0).1|
        ≤ (RevC.getTranslateBounds ⟨300, 300⟩ ⟨300, 300⟩ 2).maxX
    ∧ |(RevC.panEndSavedTranslate ⟨300, 300⟩ ⟨300, 300⟩ 2 0 0 700 0).2|
        ≤ (RevC.getTranslateBounds ⟨300, 300⟩ ⟨300, 300⟩ 2).maxY :=
  (committed_state_invariants 1 4 ⟨300, 300⟩ ⟨300, 300⟩ (by norm_num)).2.2.1 2 0 0 700 0

/-! ## C6 -/

/-- Per-frame pinch updates accumulate no notifications and never touch the
committed zoomed flag or the saved scale. -/
theorem RevC.pinch_fold_characterization (minScale maxScale : ℚ) (events : List ℚ)
    (st : RevC.PinchTraceState) (acc : List Bool) :
    (events.foldl (fun a e =>
        let r := RevC.pinchOnUpdateT minScale maxScale a.1 e
        (r.1, a.2 ++ r.2)) (st, acc)).2 = acc
    ∧ (events.foldl (fun a e =>
        let r := RevC.pinchOnUpdateT minScale maxScale a.1 e
        (r.1, a.2 ++ r.2)) (st, acc)).1.zoomed = st.zoomed := by
  induction events generalizing st acc with
  | nil => exact ⟨rfl, rfl⟩
  | cons e es ih =>
    rw [List.foldl_cons]
    have hstep : (let r := RevC.pinchOnUpdateT minScale maxScale (st, acc).1 e
        (r.1, (st, acc).2 ++ r.2))
        = ((RevC.pinchOnUpdateT minScale maxScale st e).1, acc) := by
      show ((RevC.pinchOnUpdateT minScale maxScale st e).1,
        acc ++ ([] : List Bool)) = _
      rw [List.append_nil]
    rw [hstep]
    exact ⟨(ih _ _).1, (ih _ _).2⟩

/-- C6 counterexample: the specification's own scenario — scale crossing
1.0 → 1.0001 → 2.0 → 1.0 within one pinch gesture — fires zero
onZoomStateChange notifications, not two: intermediate updates never fire
and the single end-of-gesture check compares the committed flag at gesture
start with the one at gesture end, both unzoomed. -/
theorem pinch_crossing_gesture_fires_zero :
    (RevC.pinchGestureRun 1 4 ⟨1, 1, false⟩ [10001/10000, 2, 1]).2 = []
    ∧ (RevC.pinchGestureRun 1 4 ⟨1, 1, false⟩ [10001/10000, 2, 1]).2.length ≠ 2 := by
  constructor <;>
    norm_num [RevC.pinchGestureRun, RevC.pinchOnStartT, RevC.pinchOnUpdateT,
      RevC.pinchOnEndT, RevC.pinchUpdateScale, RevC.RUBBER_BAND_FACTOR,
      RevC.MIN_OVER_SCALE, clamp, List.foldl]

/-- C6 (amended): `onZoomStateChange` never fires on intermediate scale
updates; a whole pinch gesture fires exactly the edge between the committed
zoomed flag at gesture start and at gesture end — hence at most once per
gesture, and zero times for a gesture that crosses to zoomed and back;
zoom-in and zoom-out fire exactly on a flag flip; the delayed gallery reset,
however, fires false unconditionally, so it can repeat a false notification
without a flip. -/
theorem zoom_notification_edges (minScale maxScale : ℚ) (st : RevC.PinchTraceState)
    (eventScales : List ℚ) (wasZoomed : Bool) (dt : DoubleTapConfig)
    (container content : Dimensions) (s tx ty fx fy : ℚ) :
    ((RevC.pinchGestureRun minScale maxScale st eventScales).2
      = (if st.zoomed != (RevC.pinchGestureRun minScale maxScale st eventScales).1.zoomed
          then [(RevC.pinchGestureRun minScale maxScale st eventScales).1.zoomed] else []))
    ∧ (RevC.pinchGestureRun minScale maxScale st eventScales).2.length ≤ 1
    ∧ (∀ stU e, (RevC.pinchOnUpdateT minScale maxScale stU e).2 = [])
    ∧ ((RevC.zoomIn minScale maxScale dt container content s tx ty wasZoomed fx fy).2
        = (if wasZoomed != (RevC.zoomIn minScale maxScale dt container content s tx ty
              wasZoomed fx fy).1.zoomed
           then [(RevC.zoomIn minScale maxScale dt container content s tx ty
              wasZoomed fx fy).1.zoomed] else []))
    ∧ ((RevC.zoomOut minScale wasZoomed).2
        = (if wasZoomed != (RevC.zoomOut minScale wasZoomed).1.zoomed
           then [(RevC.zoomOut minScale wasZoomed).1.zoomed] else []))
    ∧ ((RevC.resetZoomDelayedRun minScale true).2 = [false]
        ∧ (RevC.resetZoomDelayedRun minScale false).2 = [false]) := by
  have hchar := RevC.pinch_fold_characterization minScale maxScale eventScales
      (RevC.pinchOnStartT st) []
  have hrun : (RevC.pinchGestureRun minScale maxScale st eventScales).2
      = (if st.zoomed != (RevC.pinchGestureRun minScale maxScale st eventScales).1.zoomed
          then [(RevC.pinchGestureRun minScale maxScale st eventScales).1.zoomed] else []) := by
    simp only [RevC.pinchGestureRun]
    rw [hchar.1, List.nil_append]
    simp only [RevC.pinchOnEndT]
    rw [hchar.2]
    rfl
  refine ⟨hrun, ?_, fun stU e => rfl, ?_, ?_, rfl, rfl⟩
  · rw [hrun]
    split_ifs <;> simp
  · cases wasZoomed <;> rfl
  · cases wasZoomed <;> rfl
